import Mathlib

/-!
Shallow embedding of `src/api/normalize_leads.py` (the lead-normalization
engine of the Lead_Score repository).

Python values appearing in a batch payload are modelled by `PyVal`;
raisable Python exceptions by `PyErr`; fallible evaluation by
`Except PyErr _`.  Dicts are ordered association lists with string keys
(JSON-derived Python dicts always have string keys, and insertion order
is the iteration order).
-/

/-- A Python/JSON value as it occurs in a batch payload. -/
inductive PyVal where
  | str (s : String)
  | bool (b : Bool)
  | int (n : Int)
  | list (xs : List PyVal)
  | dict (entries : List (String × PyVal))
  | none

/-- A Python exception kind raised by `normalize_batch`. -/
inductive PyErr where
  | nameError
  | valueError
  | typeError
  | attributeError
  | keyError
deriving DecidableEq

/-- Test `charsStarts n h` : the char list `n` is an initial segment of `h`. -/
def charsStarts : List Char → List Char → Bool
  | [], _ => true
  | _ :: _, [] => false
  | a :: as, b :: bs => a == b && charsStarts as bs

/-- Test `charsSub n h` : the char list `n` occurs contiguously inside `h`
(Python's `n in h` for strings). -/
def charsSub (needle : List Char) : List Char → Bool
  | [] => needle.isEmpty
  | c :: hs => charsStarts needle (c :: hs) || charsSub needle hs

/-- Python `needle in hay` for strings: contiguous substring test. -/
def strContains (hay needle : String) : Bool :=
  charsSub needle.toList hay.toList

/-- Python `s.lower()` (ASCII case folding, which covers every fragment
the normalizer matches against). -/
def strToLower (s : String) : String :=
  String.mk (s.toList.map Char.toLower)

/-- A whitespace character, for `str.strip()`. -/
def isWS (c : Char) : Bool :=
  c == ' ' || c == '\t' || c == '\n' || c == '\r'

/-- Python `s.strip()`: drop whitespace from both ends. -/
def strStrip (s : String) : String :=
  String.mk (((s.toList.dropWhile isWS).reverse.dropWhile isWS).reverse)

/-- Split a char list at every occurrence of `sep`, keeping empty
pieces, as Python `s.split(sep)` does for a one-char separator. -/
def splitChars (sep : Char) : List Char → List (List Char)
  | [] => [[]]
  | c :: rest =>
      let r := splitChars sep rest
      if c == sep then [] :: r
      else
        match r with
        | [] => [[c]]
        | g :: gs => (c :: g) :: gs

/-- Python `s.split('-')` and friends (one-character separator). -/
def pySplit (s : String) (sep : Char) : List String :=
  (splitChars sep s.toList).map (fun l => String.mk l)

/-- Python truthiness (`bool(v)`): empty string/list/dict, `False`, `0`
and `None` are falsy, everything else truthy. -/
def truthy : PyVal → Bool
  | PyVal.str s => !s.isEmpty
  | PyVal.bool b => b
  | PyVal.int n => n != 0
  | PyVal.list xs => !xs.isEmpty
  | PyVal.dict es => !es.isEmpty
  | PyVal.none => false

/-- Python `any(term in k.lower() for term in keys)` : does the key `k` match
one of the lowercase fragments? (normalize_leads.py line 37). -/
def keyMatches (frags : List String) (k : String) : Bool :=
  frags.any (fun term => strContains (strToLower k) term)

/-- The `first` helper of `normalize_batch` (lines 34-39): value of the
first key of `sd` whose lowercased name contains any fragment, else
`None` (modelled as `Option.none`). -/
def first (sd : List (String × PyVal)) (keys : List String) : Option PyVal :=
  match sd with
  | [] => Option.none
  | (k, v) :: rest =>
      if keyMatches keys k then some v else first rest keys

/-- Python `x or d` where `x` is the result of `first` (`None` or a
value): the default `d` when `x` is `None` or falsy. -/
def pyOrV (x : Option PyVal) (d : PyVal) : PyVal :=
  match x with
  | Option.none => d
  | some v => if truthy v then v else d

/-- Python `lodging or d` for a list. -/
def pyOrL (l : List PyVal) (d : List PyVal) : List PyVal :=
  if l.isEmpty then d else l

/-- Decimal digit run to a number; `Option.none` if empty or non-digit. -/
def digitsValAux : List Char → Nat → Option Nat
  | [], acc => some acc
  | c :: rest, acc =>
      if c.isDigit then digitsValAux rest (acc * 10 + (c.toNat - 48))
      else Option.none

/-- All-digit string body to a number; `Option.none` if empty. -/
def digitsVal : List Char → Option Nat
  | [] => Option.none
  | cs => digitsValAux cs 0

/-- Python `int(s)` on an already-trimmed string: optional sign then
decimal digits; otherwise unparseable. -/
def parseIntStr (s : String) : Option Int :=
  match s.toList with
  | '+' :: rest => (digitsVal rest).map (fun n => (n : Int))
  | '-' :: rest => (digitsVal rest).map (fun n => -(n : Int))
  | l => (digitsVal l).map (fun n => (n : Int))

/-- Python `int(v)`: ints pass through, bools become 0/1, strings are
trimmed and parsed (`ValueError` on failure), anything else is a
`TypeError`. -/
def pyToInt : PyVal → Except PyErr Int
  | PyVal.int n => Except.ok n
  | PyVal.bool b => Except.ok (if b then 1 else 0)
  | PyVal.str s =>
      match parseIntStr (strStrip s) with
      | some n => Except.ok n
      | Option.none => Except.error PyErr.valueError
  | _ => Except.error PyErr.typeError

/-- Fragments used for the group-size field (line 42). -/
def gsFrags : List String := ["group size", "size"]

/-- Line 42: `group_size = int(first(["group size", "size"]) or 1)`. -/
def extract_group_size (sd : List (String × PyVal)) : Except PyErr Int :=
  pyToInt (pyOrV (first sd gsFrags) (PyVal.int 1))

/-- The lodging key test of line 46:
`"lodging option" in k.lower() or "lodging" in k.lower()`. -/
def lodgingKeyMatch (k : String) : Bool :=
  strContains (strToLower k) "lodging option" || strContains (strToLower k) "lodging"

/-- Python `v if isinstance(v, list) else [v]` (line 47). -/
def pyFlatten : PyVal → List PyVal
  | PyVal.list xs => xs
  | v => [v]

/-- Lines 44-47: aggregate, over every key whose lowercased name matches
the lodging test, the flattened value, in submission order. -/
def collectLodging : List (String × PyVal) → List PyVal
  | [] => []
  | (k, v) :: rest =>
      if lodgingKeyMatch k then pyFlatten v ++ collectLodging rest
      else collectLodging rest

/-- Line 56: `lodging or ["Any"]`, the output `preferred_lodging_type`. -/
def lodgingField (sd : List (String × PyVal)) : List PyVal :=
  pyOrL (collectLodging sd) [PyVal.str "Any"]

/-- Lines 58-59: `any(frag in k.lower() and sd[k] for k in sd)`.
`sd[k]` is the first binding of `k` (on a genuine Python dict the keys
are distinct, so it is the pair's own value). -/
def optIn (sd : List (String × PyVal)) (frag : String) : Bool :=
  sd.any (fun kv =>
    strContains (strToLower kv.1) frag &&
      truthy ((sd.lookup kv.1).getD PyVal.none))

/-- Python subscript `v[k]` with a string key: `KeyError` on a dict
missing the key, `TypeError` on any non-dict. -/
def pySubscript : PyVal → String → Except PyErr PyVal
  | PyVal.dict es, k =>
      match es.lookup k with
      | some v => Except.ok v
      | Option.none => Except.error PyErr.keyError
  | _, _ => Except.error PyErr.typeError

/-- Python `v.get(k, d)`: dict lookup with default; non-dicts have no
`get` attribute (line 31: `lead.get("submission_data", {})`). -/
def pyGet (v : PyVal) (k : String) (d : PyVal) : Except PyErr PyVal :=
  match v with
  | PyVal.dict es => Except.ok ((es.lookup k).getD d)
  | _ => Except.error PyErr.attributeError

/-- Python `sd.items()`: only dicts have it (the `first` helper and the lodging
loop iterate it; a non-dict `submission_data` raises AttributeError). -/
def sdItems : PyVal → Except PyErr (List (String × PyVal))
  | PyVal.dict es => Except.ok es
  | _ => Except.error PyErr.attributeError

/-- Python `iter(v)` collected into a list: lists yield their elements,
strings their one-char substrings, dicts their keys; other values are
not iterable (`TypeError`). -/
def iterPy : PyVal → Except PyErr (List PyVal)
  | PyVal.list xs => Except.ok xs
  | PyVal.str s => Except.ok (s.toList.map (fun c => PyVal.str (String.mk [c])))
  | PyVal.dict es => Except.ok (es.map (fun kv => PyVal.str kv.1))
  | _ => Except.error PyErr.typeError

/-- One step of the generator on line 63-65 for a single range `rng`:
`for start, end in [map(str.strip, rng.split('-'))]` unpacks the
hyphen-split into exactly two parts (otherwise `ValueError`), and the
body `(pd.parse(end) - pd.parse(start)).days` then evaluates the name
`pd`, which is **not defined** in the module (`NameError`); a non-string
`rng` has no `.split` (`AttributeError`).  The step can therefore never
produce a night count. -/
def rangeStep : PyVal → Except PyErr Int
  | PyVal.str s =>
      if ((pySplit s '-').map strStrip).length = 2 then Except.error PyErr.nameError
      else Except.error PyErr.valueError
  | _ => Except.error PyErr.attributeError

/-- Left-to-right effectful map over `Except`, stopping at the first
error — the order in which Python's `max` drains the generator. -/
def mapMExc (f : PyVal → Except PyErr Int) : List PyVal → Except PyErr (List Int)
  | [] => Except.ok []
  | x :: xs =>
      match f x with
      | Except.error e => Except.error e
      | Except.ok y =>
          match mapMExc f xs with
          | Except.error e => Except.error e
          | Except.ok ys => Except.ok (y :: ys)

/-- Python `max(seq)`: `ValueError` on an empty sequence. -/
def pyMax : List Int → Except PyErr Int
  | [] => Except.error PyErr.valueError
  | x :: xs => Except.ok (xs.foldl max x)

/-- Python `min(seq)`: `ValueError` on an empty sequence. -/
def pyMin : List Int → Except PyErr Int
  | [] => Except.error PyErr.valueError
  | x :: xs => Except.ok (xs.foldl min x)

/-- Lines 63-65: `nights = max((pd.parse(end) - pd.parse(start)).days
for rng in date_ranges for start, end in [map(str.strip, rng.split('-'))])`.
`max` first iterates `date_ranges`, then drains the generator, whose
every step raises (see `rangeStep`); an exhausted empty generator makes
`max` itself raise `ValueError`. -/
def nightsOf (date_ranges : PyVal) : Except PyErr Int :=
  match iterPy date_ranges with
  | Except.error e => Except.error e
  | Except.ok rngs =>
      match mapMExc rangeStep rngs with
      | Except.error e => Except.error e
      | Except.ok elems => pyMax elems

/-- Lookup `PRICING.get(lod, 0)` (line 66): string keys look up the table with
default 0; unhashable keys (lists, dicts) raise `TypeError`; other
hashable values simply miss and give 0. -/
def pricingGet (pricing : List (String × Int)) : PyVal → Except PyErr Int
  | PyVal.str s => Except.ok ((pricing.lookup s).getD 0)
  | PyVal.list _ => Except.error PyErr.typeError
  | PyVal.dict _ => Except.error PyErr.typeError
  | _ => Except.ok 0

/-- Line 66: `price_per_night = min(PRICING.get(lod, 0) for lod in
lodging or PRICING)` — when `lodging` is empty the generator runs over
the pricing table's keys instead. -/
def price_per_night (pricing : List (String × Int)) (lodging : List PyVal) :
    Except PyErr Int :=
  match mapMExc (pricingGet pricing)
      (if lodging.isEmpty then pricing.map (fun kv => PyVal.str kv.1)
       else lodging) with
  | Except.error e => Except.error e
  | Except.ok ps => pyMin ps

/-- Fragments used for the notes field (line 50). -/
def notesFrags : List String := ["comment", "instruction", "note"]

/-- The dict literal appended to `cleaned` (lines 52-62).  Evaluating it
first subscripts `lead["_id"]["$oid"]`; note the literal has no
`estimated_revenue` key. -/
def buildRecord (lead : PyVal) (sd : List (String × PyVal)) (group_size : Int)
    (lodging : List PyVal) (date_ranges : PyVal) (notes : PyVal) :
    Except PyErr PyVal :=
  match pySubscript lead "_id" with
  | Except.error e => Except.error e
  | Except.ok idv =>
      match pySubscript idv "$oid" with
      | Except.error e => Except.error e
      | Except.ok oid =>
          Except.ok (PyVal.dict
            [("_id", oid),
             ("group_size", PyVal.int group_size),
             ("preferred_lodging_type", PyVal.list (pyOrL lodging [PyVal.str "Any"])),
             ("desired_date_ranges", date_ranges),
             ("text_opt_in", PyVal.bool (optIn sd "text update")),
             ("email_opt_in", PyVal.bool (optIn sd "email update")),
             ("notes", notes)])

/-- Lines 67-68: `est_rev = nights * price_per_night * group_size` and
`lead_obj["estimated_revenue"] = est_rev`.  The name `lead_obj` is
**not defined** anywhere in the module, so after computing `est_rev`
this statement raises `NameError`. -/
def est_rev_stmt (nights ppn group_size : Int) : Except PyErr PyVal :=
  let _est_rev := nights * ppn * group_size
  Except.error PyErr.nameError

/-- The body of the `for lead in raw_leads` loop (lines 30-68), in the
source's evaluation order.  The pure bindings of lines 44-50 (`lodging`,
`date_ranges`, `notes`) cannot raise and are inlined at their use sites.
The tail (lines 63-68) belongs to the loop body; see `nightsOf` and
`est_rev_stmt` for why it always raises. -/
def leadStep (pricing : List (String × Int)) (lead : PyVal) :
    Except PyErr PyVal :=
  match pyGet lead "submission_data" (PyVal.dict []) with
  | Except.error e => Except.error e
  | Except.ok sdv =>
  match sdItems sdv with
  | Except.error e => Except.error e
  | Except.ok sd =>
  match extract_group_size sd with
  | Except.error e => Except.error e
  | Except.ok group_size =>
  match buildRecord lead sd group_size (collectLodging sd)
      ((sd.lookup "SelectedDateRanges").getD (PyVal.list []))
      (pyOrV (first sd notesFrags) (PyVal.str "")) with
  | Except.error e => Except.error e
  | Except.ok _rec =>
  match nightsOf ((sd.lookup "SelectedDateRanges").getD (PyVal.list [])) with
  | Except.error e => Except.error e
  | Except.ok nights =>
  match price_per_night pricing (collectLodging sd) with
  | Except.error e => Except.error e
  | Except.ok ppn =>
  est_rev_stmt nights ppn group_size

/-- The loop over `raw_leads`: an uncaught exception from any lead
aborts the whole batch (the partially built `cleaned` list is lost). -/
def processLeads (pricing : List (String × Int)) :
    List PyVal → Except PyErr (List PyVal)
  | [] => Except.ok []
  | l :: ls =>
      match leadStep pricing l with
      | Except.error e => Except.error e
      | Except.ok c =>
          match processLeads pricing ls with
          | Except.error e => Except.error e
          | Except.ok cs => Except.ok (c :: cs)

/-- Function `normalize_batch(payload)` (lines 18-71): `payload.get("leads", [])`
(AttributeError on a non-dict payload), iterate the result, run the loop
body per lead, and wrap the survivors as `{"leads": cleaned}`. -/
def normalize_batch (pricing : List (String × Int)) (payload : PyVal) :
    Except PyErr PyVal :=
  match payload with
  | PyVal.dict es =>
      let raw_leads := (es.lookup "leads").getD (PyVal.list [])
      match iterPy raw_leads with
      | Except.error e => Except.error e
      | Except.ok leads =>
          match processLeads pricing leads with
          | Except.error e => Except.error e
          | Except.ok cleaned =>
              Except.ok (PyVal.dict [("leads", PyVal.list cleaned)])
  | _ => Except.error PyErr.attributeError

/-- The attempt to iterate `payload.get("leads", [])`, as a standalone
observable: `Except.ok []` exactly when that iteration yields no lead. -/
def leadsIter (payload : PyVal) : Except PyErr (List PyVal) :=
  match payload with
  | PyVal.dict es => iterPy ((es.lookup "leads").getD (PyVal.list []))
  | _ => Except.error PyErr.attributeError


/-! ## Helper lemmas -/

/-- On an association list with pairwise distinct keys (as every Python
dict is), looking up a member pair's key returns that pair's value. -/
theorem lookup_nodup {β : Type} (l : List (String × β))
    (h : (l.map Prod.fst).Nodup) :
    ∀ kv ∈ l, l.lookup kv.1 = some kv.2 := by
  induction l with
  | nil => intro kv hkv; cases hkv
  | cons hd tl ih =>
      intro kv hkv
      rw [List.map_cons, List.nodup_cons] at h
      rcases List.mem_cons.mp hkv with rfl | hmem
      · simp [List.lookup]
      · have hne : kv.1 ≠ hd.1 := by
          intro he
          exact h.1 (he ▸ List.mem_map_of_mem Prod.fst hmem)
        have hb : (kv.1 == hd.1) = false := beq_eq_false_iff_ne.mpr hne
        simp only [List.lookup, hb]
        exact ih h.2 kv hmem

/-- Folding `min` over a list yields the seed or a member. -/
theorem foldl_min_mem (xs : List Int) : ∀ a : Int,
    xs.foldl min a = a ∨ xs.foldl min a ∈ xs := by
  induction xs with
  | nil => intro a; exact Or.inl rfl
  | cons x l ih =>
      intro a
      simp only [List.foldl_cons]
      rcases ih (min a x) with h | h
      · rcases min_choice a x with hax | hax
        · exact Or.inl (h.trans hax)
        · exact Or.inr (by rw [h, hax]; exact List.mem_cons_self x l)
      · exact Or.inr (List.mem_cons_of_mem x h)

/-- Folding `min` over a list bounds the seed and every member. -/
theorem foldl_min_le (xs : List Int) : ∀ a : Int,
    xs.foldl min a ≤ a ∧ ∀ y ∈ xs, xs.foldl min a ≤ y := by
  induction xs with
  | nil => intro a; exact ⟨le_refl a, by intro y hy; cases hy⟩
  | cons x l ih =>
      intro a
      simp only [List.foldl_cons]
      refine ⟨le_trans (ih (min a x)).1 (min_le_left a x), ?_⟩
      intro y hy
      rcases List.mem_cons.mp hy with rfl | hy
      · exact le_trans (ih (min a y)).1 (min_le_right a y)
      · exact (ih (min a x)).2 y hy

/-- Python `min(seq)` on a non-empty sequence returns a member that is a lower
bound of the sequence. -/
theorem pyMin_spec (xs : List Int) (h : xs ≠ []) :
    ∃ p, pyMin xs = Except.ok p ∧ p ∈ xs ∧ ∀ y ∈ xs, p ≤ y := by
  cases xs with
  | nil => exact absurd rfl h
  | cons a l =>
      refine ⟨l.foldl min a, rfl, ?_, ?_⟩
      · rcases foldl_min_mem l a with h1 | h1
        · rw [h1]; exact List.mem_cons_self a l
        · exact List.mem_cons_of_mem a h1
      · intro y hy
        rcases List.mem_cons.mp hy with rfl | hy
        · exact (foldl_min_le l y).1
        · exact (foldl_min_le l a).2 y hy

/-- Lookup `PRICING.get(lod, 0)` mapped over string lodging types never raises
and produces the looked-up prices with default 0. -/
theorem mapMExc_strs (pricing : List (String × Int)) (ls : List String) :
    mapMExc (pricingGet pricing) (ls.map PyVal.str) =
      Except.ok (ls.map fun lod => (pricing.lookup lod).getD 0) := by
  induction ls with
  | nil => rfl
  | cons l t ih => simp [mapMExc, pricingGet, ih]

/-- The loop body never completes: every lead raises (at the latest, the
revenue block of lines 63-68 does). -/
theorem leadStep_err (pricing : List (String × Int)) (l : PyVal) :
    ∃ e, leadStep pricing l = Except.error e := by
  unfold leadStep
  repeat' split
  all_goals exact ⟨_, rfl⟩

/-- Python `any(frag in k.lower() and sd[k] for k in sd)` on a dict with
distinct keys is exactly an existence test over the dict's pairs. -/
theorem optIn_iff (sd : List (String × PyVal)) (frag : String)
    (h : (sd.map Prod.fst).Nodup) :
    optIn sd frag = true ↔
      ∃ kv ∈ sd, strContains (strToLower kv.1) frag = true ∧ truthy kv.2 = true := by
  unfold optIn
  rw [List.any_eq_true]
  constructor
  · rintro ⟨kv, hmem, hp⟩
    rw [Bool.and_eq_true] at hp
    refine ⟨kv, hmem, hp.1, ?_⟩
    have hl := lookup_nodup sd h kv hmem
    rw [hl] at hp
    simpa using hp.2
  · rintro ⟨kv, hmem, h1, h2⟩
    refine ⟨kv, hmem, ?_⟩
    rw [Bool.and_eq_true, lookup_nodup sd h kv hmem]
    exact ⟨h1, by simpa using h2⟩

/-! ## Claim theorems -/

/-- Claim C1 (code bug): the spec says `estimated_revenue` is attached
as `total_nights * resolved_nightly_price * group_size` when a valid
range exists, and omitted otherwise; the code instead raises at the
revenue block: on a lead carrying one well-formed range `"x - y"`, the
reference to the undefined name `pd` makes `normalize_batch` raise
`NameError`, so no canonical record (with or without the field) is ever
produced. -/
theorem C1_revenue_crash :
    normalize_batch [("Cabin", 100)]
      (PyVal.dict [("leads", PyVal.list
        [PyVal.dict
          [("_id", PyVal.dict [("$oid", PyVal.str "L1")]),
           ("submission_data",
             PyVal.dict [("SelectedDateRanges", PyVal.list [PyVal.str "x - y"])])]])])
      = Except.error PyErr.nameError := rfl

/-- Claim C3 (code bug): the spec says a lead lacking a usable id is
excluded and reported while the batch continues; the code has no
per-lead error containment at all — a first lead without `"_id"` makes
the whole `normalize_batch` raise `KeyError`, the well-formed second
lead is never processed, and no output or error list is produced. -/
theorem C3_batch_abort :
    normalize_batch []
      (PyVal.dict [("leads", PyVal.list
        [PyVal.dict [("submission_data", PyVal.dict [])],
         PyVal.dict
           [("_id", PyVal.dict [("$oid", PyVal.str "B")]),
            ("submission_data", PyVal.dict [])]])])
      = Except.error PyErr.keyError := rfl

/-- Claim C5 (code bug): the spec says a malformed range is discarded
and the remaining valid ranges give `total_nights` as their maximum; the
code instead aborts on the spec's own example — the malformed range
`"not-a-date - also-not-a-date"` splits on `'-'` into seven parts, the
tuple unpacking raises `ValueError`, and the valid second range is never
reached (nor could it be: `pd` is undefined). -/
theorem C5_range_crash :
    nightsOf (PyVal.list
        [PyVal.str "not-a-date - also-not-a-date",
         PyVal.str "May 1, 2024 - May 5, 2024"])
      = Except.error PyErr.valueError ∧
    normalize_batch [("Cabin", 100)]
      (PyVal.dict [("leads", PyVal.list
        [PyVal.dict
          [("_id", PyVal.dict [("$oid", PyVal.str "L5")]),
           ("submission_data",
             PyVal.dict [("SelectedDateRanges", PyVal.list
               [PyVal.str "not-a-date - also-not-a-date",
                PyVal.str "May 1, 2024 - May 5, 2024"])])]])])
      = Except.error PyErr.valueError := ⟨rfl, rfl⟩

/-- Claim C2 (amended): `normalize_batch` returns normally exactly when
iterating `payload.get("leads", [])` yields no lead; every lead's loop
body raises; per range string, the generator step raises `NameError` on
the undefined `pd` when the hyphen-split has exactly two parts and
`ValueError` (tuple unpacking) otherwise; and `max()` over the empty
generator of an empty `date_ranges` raises `ValueError`. -/
theorem C2_batch_raises (pricing : List (String × Int)) (payload : PyVal) :
    ((∃ out, normalize_batch pricing payload = Except.ok out) ↔
        leadsIter payload = Except.ok []) ∧
    (∀ l, ∃ e, leadStep pricing l = Except.error e) ∧
    (∀ s : String, ((pySplit s '-').map strStrip).length = 2 →
        rangeStep (PyVal.str s) = Except.error PyErr.nameError) ∧
    (∀ s : String, ((pySplit s '-').map strStrip).length ≠ 2 →
        rangeStep (PyVal.str s) = Except.error PyErr.valueError) ∧
    nightsOf (PyVal.list []) = Except.error PyErr.valueError := by
  refine ⟨?_, fun l => leadStep_err pricing l, ?_, ?_, rfl⟩
  · cases payload with
    | dict es =>
        simp only [normalize_batch, leadsIter]
        cases hit : iterPy ((es.lookup "leads").getD (PyVal.list [])) with
        | error e => simp
        | ok leads =>
            cases leads with
            | nil => simp [processLeads]
            | cons l ls =>
                obtain ⟨e, he⟩ := leadStep_err pricing l
                simp [processLeads, he]
    | str s => simp [normalize_batch, leadsIter]
    | bool b => simp [normalize_batch, leadsIter]
    | int n => simp [normalize_batch, leadsIter]
    | list xs => simp [normalize_batch, leadsIter]
    | none => simp [normalize_batch, leadsIter]
  · intro s h
    simp only [rangeStep]
    rw [if_pos h]
  · intro s h
    simp only [rangeStep]
    rw [if_neg h]

/-- Claim C2, counterexample to the error-kind attribution: the lead's
date ranges are present, yet the exception is a `ValueError` (the
ISO-style range splits on `'-'` into six parts and tuple unpacking
fails), not the claimed `NameError`. -/
theorem C2_counterexample :
    nightsOf (PyVal.list [PyVal.str "2024-05-01 - 2024-05-03"])
      = Except.error PyErr.valueError ∧
    normalize_batch []
      (PyVal.dict [("leads", PyVal.list
        [PyVal.dict
          [("_id", PyVal.dict [("$oid", PyVal.str "L2")]),
           ("submission_data",
             PyVal.dict [("SelectedDateRanges", PyVal.list
               [PyVal.str "2024-05-01 - 2024-05-03"])])]])])
      = Except.error PyErr.valueError ∧
    PyErr.valueError ≠ PyErr.nameError := ⟨rfl, rfl, by decide⟩

/-- Claim C2, witness: the amended theorem applied at concrete inputs —
an empty batch returns normally, and the range `"x - y"` (two parts)
raises the `NameError`. -/
theorem C2_batch_raises_witness :
    (∃ out, normalize_batch [] (PyVal.dict [("leads", PyVal.list [])])
        = Except.ok out) ∧
    ((pySplit "x - y" '-').map strStrip).length = 2 ∧
    rangeStep (PyVal.str "x - y") = Except.error PyErr.nameError := by
  have h := C2_batch_raises [] (PyVal.dict [("leads", PyVal.list [])])
  exact ⟨h.1.mpr rfl, rfl, h.2.2.1 "x - y" rfl⟩

/-- Claim C4, counterexample: a matched group-size value `"abc"` is
truthy but not parseable, so `int("abc")` raises and the `ValueError`
escapes `normalize_batch` — the output is neither `1` nor any integer,
contradicting "defaults to 1 on non-numeric, no exception escapes". -/
theorem C4_counterexample :
    normalize_batch []
      (PyVal.dict [("leads", PyVal.list
        [PyVal.dict
          [("_id", PyVal.dict [("$oid", PyVal.str "A")]),
           ("submission_data",
             PyVal.dict [("Group Size", PyVal.str "abc")])]])])
      = Except.error PyErr.valueError := rfl

/-- Claim C4 (amended): `group_size` is `int()` of the first value whose
key matches a fragment in {"group size", "size"}, with `1` substituted
when no key matches or the matched value is falsy; a truthy matched
value is handed to `int()` as-is, whose failure escapes. -/
theorem C4_group_size (sd : List (String × PyVal)) :
    (first sd gsFrags = Option.none → extract_group_size sd = Except.ok 1) ∧
    (∀ v, first sd gsFrags = some v → truthy v = false →
        extract_group_size sd = Except.ok 1) ∧
    (∀ v, first sd gsFrags = some v → truthy v = true →
        extract_group_size sd = pyToInt v) := by
  refine ⟨?_, ?_, ?_⟩
  · intro h
    unfold extract_group_size
    rw [h]
    rfl
  · intro v h hf
    unfold extract_group_size
    rw [h]
    simp only [pyOrV, hf]
    rfl
  · intro v h ht
    unfold extract_group_size
    rw [h]
    simp only [pyOrV, ht, if_true]

/-- Claim C4, witness: on the submission `{"Group Size": "5"}` the
amended theorem yields `group_size = 5`. -/
theorem C4_group_size_witness :
    first [("Group Size", PyVal.str "5")] gsFrags = some (PyVal.str "5") ∧
    truthy (PyVal.str "5") = true ∧
    extract_group_size [("Group Size", PyVal.str "5")] = Except.ok 5 := by
  have h := (C4_group_size [("Group Size", PyVal.str "5")]).2.2
    (PyVal.str "5") rfl rfl
  exact ⟨rfl, rfl, h.trans rfl⟩

/-- Claim C6 (confirmed): the resolved nightly price is the minimum of
the table prices of the selected lodging types, an absent type counting
as 0; with the empty (defaulted-to-`["Any"]`) selection the minimum
ranges over the whole pricing table instead. -/
theorem C6_price_min (pricing : List (String × Int)) (lodging : List String)
    (hpn : (pricing.map Prod.fst).Nodup) :
    (lodging ≠ [] →
      ∃ p, price_per_night pricing (lodging.map PyVal.str) = Except.ok p ∧
        p ∈ lodging.map (fun lod => (pricing.lookup lod).getD 0) ∧
        ∀ lod ∈ lodging, p ≤ (pricing.lookup lod).getD 0) ∧
    (pricing ≠ [] →
      ∃ p, price_per_night pricing [] = Except.ok p ∧
        p ∈ pricing.map Prod.snd ∧
        ∀ kv ∈ pricing, p ≤ kv.2) := by
  constructor
  · intro hl
    cases lodging with
    | nil => exact absurd rfl hl
    | cons a t =>
        have hne : (a :: t).map (fun lod => (pricing.lookup lod).getD 0) ≠ [] := by
          simp
        obtain ⟨p, hp, hmem, hle⟩ :=
          pyMin_spec ((a :: t).map fun lod => (pricing.lookup lod).getD 0) hne
        refine ⟨p, ?_, hmem, ?_⟩
        · have hred : price_per_night pricing ((a :: t).map PyVal.str) =
              (match mapMExc (pricingGet pricing) ((a :: t).map PyVal.str) with
               | Except.error e => Except.error e
               | Except.ok ps => pyMin ps) := rfl
          rw [hred, mapMExc_strs]
          exact hp
        · intro lod hlod
          exact hle _ (List.mem_map_of_mem _ hlod)
  · intro hpr
    have hmm : mapMExc (pricingGet pricing) (pricing.map fun kv => PyVal.str kv.1)
        = Except.ok (pricing.map fun kv => (pricing.lookup kv.1).getD 0) := by
      have h1 : pricing.map (fun kv => PyVal.str kv.1)
          = (pricing.map Prod.fst).map PyVal.str := by
        rw [List.map_map]
        exact rfl
      have h2 : (pricing.map Prod.fst).map (fun lod => (pricing.lookup lod).getD 0)
          = pricing.map fun kv => (pricing.lookup kv.1).getD 0 := by
        rw [List.map_map]
        exact rfl
      rw [h1, mapMExc_strs, h2]
    have hne : pricing.map (fun kv => (pricing.lookup kv.1).getD 0) ≠ [] := by
      intro hcon
      exact hpr (List.map_eq_nil_iff.mp hcon)
    obtain ⟨p, hp, hmem, hle⟩ :=
      pyMin_spec (pricing.map fun kv => (pricing.lookup kv.1).getD 0) hne
    refine ⟨p, ?_, ?_, ?_⟩
    · have hred : price_per_night pricing [] =
          (match mapMExc (pricingGet pricing) (pricing.map fun kv => PyVal.str kv.1) with
           | Except.error e => Except.error e
           | Except.ok ps => pyMin ps) := rfl
      rw [hred, hmm]
      exact hp
    · obtain ⟨kv, hkv, hpkv⟩ := List.mem_map.mp hmem
      rw [← hpkv, lookup_nodup pricing hpn kv hkv]
      exact List.mem_map_of_mem Prod.snd hkv
    · intro kv hkv
      have := hle _ (List.mem_map_of_mem (fun kv => (pricing.lookup kv.1).getD 0) hkv)
      rwa [lookup_nodup pricing hpn kv hkv] at this

/-- Claim C6, witness: pricing `{"Cabin": 100, "Tent": 40}` and lodging
`["Tent"]` resolve to the member lower bound delivered by the theorem. -/
theorem C6_price_min_witness :
    (["Tent"] ≠ ([] : List String)) ∧
    ∃ p, price_per_night [("Cabin", 100), ("Tent", 40)]
          (["Tent"].map PyVal.str) = Except.ok p ∧
        p ∈ ["Tent"].map (fun lod =>
          (([("Cabin", 100), ("Tent", 40)] : List (String × Int)).lookup lod).getD 0) ∧
        ∀ lod ∈ ["Tent"],
          p ≤ (([("Cabin", 100), ("Tent", 40)] : List (String × Int)).lookup lod).getD 0 := by
  refine ⟨List.cons_ne_nil _ _, ?_⟩
  exact (C6_price_min [("Cabin", 100), ("Tent", 40)] ["Tent"] (by decide)).1
    (List.cons_ne_nil _ _)

/-- Claim C7 (confirmed): `preferred_lodging_type` aggregates, in
submission order, the flattened values of every key matching the lodging
test, and defaults to `["Any"]` when no key matches. -/
theorem C7_lodging (sd : List (String × PyVal)) :
    collectLodging sd =
      ((sd.filter fun kv => lodgingKeyMatch kv.1).map fun kv => pyFlatten kv.2).flatten ∧
    ((∀ kv ∈ sd, lodgingKeyMatch kv.1 = false) →
      lodgingField sd = [PyVal.str "Any"]) := by
  have h1 : ∀ l : List (String × PyVal), collectLodging l =
      ((l.filter fun kv => lodgingKeyMatch kv.1).map fun kv => pyFlatten kv.2).flatten := by
    intro l
    induction l with
    | nil => rfl
    | cons hd tl ih =>
        obtain ⟨k, v⟩ := hd
        by_cases hm : lodgingKeyMatch k
        · simp [collectLodging, hm, List.filter_cons, ih]
        · simp [collectLodging, hm, List.filter_cons, ih]
  refine ⟨h1 sd, ?_⟩
  intro h
  have h2 : (sd.filter fun kv => lodgingKeyMatch kv.1) = [] := by
    rw [List.filter_eq_nil_iff]
    intro kv hkv
    simp [h kv hkv]
  show pyOrL (collectLodging sd) [PyVal.str "Any"] = [PyVal.str "Any"]
  rw [h1 sd, h2]
  rfl

/-- Claim C7, witness: a submission with two lodging keys (one scalar,
one list, in that order) aggregates both in order, and one with no
lodging key defaults to `["Any"]`. -/
theorem C7_lodging_witness :
    collectLodging
        [("Lodging Options", PyVal.str "Cabin"),
         ("Other lodging", PyVal.list [PyVal.str "Tent", PyVal.str "Yurt"])] =
      (([("Lodging Options", PyVal.str "Cabin"),
         ("Other lodging", PyVal.list [PyVal.str "Tent", PyVal.str "Yurt"])].filter
            fun kv => lodgingKeyMatch kv.1).map fun kv => pyFlatten kv.2).flatten ∧
    lodgingField [("Email", PyVal.str "x")] = [PyVal.str "Any"] := by
  constructor
  · exact (C7_lodging _).1
  · exact (C7_lodging [("Email", PyVal.str "x")]).2
      (by intro kv hkv; fin_cases hkv; rfl)

/-- Claim C8, counterexample: a single lead object (a dict without a
`"leads"` key) is NOT unwrapped into an envelope — it is treated as zero
leads and yields an empty output batch, while the same lead in an
explicit envelope makes the batch raise; and a bare list of leads raises
`AttributeError` (`list` has no `.get`) instead of being accepted. -/
theorem C8_counterexample :
    normalize_batch []
      (PyVal.dict
        [("_id", PyVal.dict [("$oid", PyVal.str "X")]),
         ("submission_data", PyVal.dict [])])
      = Except.ok (PyVal.dict [("leads", PyVal.list [])]) ∧
    normalize_batch []
      (PyVal.dict [("leads", PyVal.list
        [PyVal.dict
          [("_id", PyVal.dict [("$oid", PyVal.str "X")]),
           ("submission_data", PyVal.dict [])]])])
      = Except.error PyErr.valueError ∧
    normalize_batch []
      (PyVal.list
        [PyVal.dict
          [("_id", PyVal.dict [("$oid", PyVal.str "X")]),
           ("submission_data", PyVal.dict [])]])
      = Except.error PyErr.attributeError := ⟨rfl, rfl, rfl⟩

/-- Claim C8 (amended): `normalize_batch` accepts no shorthand forms:
`payload.get("leads", [])` means any dict payload without a `"leads"`
key — including a single lead object — is treated as zero leads and
produces the empty output batch without raising, while a non-dict
payload such as a bare list raises `AttributeError`. -/
theorem C8_envelope (pricing : List (String × Int))
    (entries : List (String × PyVal)) (xs : List PyVal)
    (h : entries.lookup "leads" = Option.none) :
    normalize_batch pricing (PyVal.dict entries)
        = Except.ok (PyVal.dict [("leads", PyVal.list [])]) ∧
    normalize_batch pricing (PyVal.list xs)
        = Except.error PyErr.attributeError := by
  constructor
  · simp only [normalize_batch, h]
    rfl
  · rfl

/-- Claim C8, witness: the amended theorem applied to a concrete single
lead object and a concrete bare list. -/
theorem C8_envelope_witness :
    ([(("_id" : String), PyVal.dict [("$oid", PyVal.str "X")])].lookup "leads"
        = Option.none) ∧
    normalize_batch [] (PyVal.dict [("_id", PyVal.dict [("$oid", PyVal.str "X")])])
        = Except.ok (PyVal.dict [("leads", PyVal.list [])]) ∧
    normalize_batch [] (PyVal.list [PyVal.dict [("_id", PyVal.dict [("$oid", PyVal.str "X")])]])
        = Except.error PyErr.attributeError := by
  have h := C8_envelope [] [("_id", PyVal.dict [("$oid", PyVal.str "X")])]
    [PyVal.dict [("_id", PyVal.dict [("$oid", PyVal.str "X")])]] rfl
  exact ⟨rfl, h.1, h.2⟩

/-- Claim C9 (confirmed): the `first` helper returns "no match" exactly
when no key of the submission matches any fragment, and a returned value
belongs to the first matching key in submission order — every key before
it fails the fragment test. -/
theorem C9_first_match (sd : List (String × PyVal)) (frags : List String) :
    (first sd frags = Option.none ↔ ∀ kv ∈ sd, keyMatches frags kv.1 = false) ∧
    (∀ v, first sd frags = some v →
      ∃ pre kv post, sd = pre ++ kv :: post ∧ keyMatches frags kv.1 = true ∧
        kv.2 = v ∧ ∀ kv2 ∈ pre, keyMatches frags kv2.1 = false) := by
  induction sd with
  | nil =>
      constructor
      · simp [first]
      · intro v h
        exact absurd h (by simp [first])
  | cons hd tl ih =>
      obtain ⟨k, w⟩ := hd
      by_cases hm : keyMatches frags k = true
      · constructor
        · constructor
          · intro h
            rw [show first ((k, w) :: tl) frags = some w from by
              simp [first, hm]] at h
            exact Option.noConfusion h
          · intro h
            have hk := h (k, w) (List.mem_cons_self _ _)
            simp [hm] at hk
        · intro v h
          rw [show first ((k, w) :: tl) frags = some w from by
            simp [first, hm]] at h
          refine ⟨[], (k, w), tl, rfl, hm, Option.some.inj h, ?_⟩
          intro kv2 h2
          cases h2
      · have hm2 : keyMatches frags k = false := Bool.eq_false_iff.mpr hm
        have hstep : first ((k, w) :: tl) frags = first tl frags := by
          simp [first, hm]
        constructor
        · rw [hstep]
          constructor
          · intro h kv hkv
            rcases List.mem_cons.mp hkv with rfl | hkv
            · exact hm2
            · exact (ih.1.mp h) kv hkv
          · intro h
            exact ih.1.mpr (fun kv hkv => h kv (List.mem_cons_of_mem _ hkv))
        · intro v h
          rw [hstep] at h
          obtain ⟨pre, kv, post, heq, hkm, hv, hpre⟩ := ih.2 v h
          refine ⟨(k, w) :: pre, kv, post, by rw [heq]; rfl, hkm, hv, ?_⟩
          intro kv2 h2
          rcases List.mem_cons.mp h2 with rfl | h2
          · exact hm2
          · exact hpre kv2 h2

/-- Claim C9, witness: with two matching keys present, the value of the
first (in submission order) is returned and decomposes as the theorem
states. -/
theorem C9_first_match_witness :
    ∃ pre kv post,
      ([("A", PyVal.str "skip"), ("Group Size", PyVal.str "4"),
        ("size x", PyVal.str "9")] : List (String × PyVal))
        = pre ++ kv :: post ∧
      keyMatches gsFrags kv.1 = true ∧ kv.2 = PyVal.str "4" ∧
      ∀ kv2 ∈ pre, keyMatches gsFrags kv2.1 = false := by
  exact (C9_first_match
    [("A", PyVal.str "skip"), ("Group Size", PyVal.str "4"), ("size x", PyVal.str "9")]
    gsFrags).2 (PyVal.str "4") rfl

/-- Claim C10 (confirmed): on a submission dict (distinct keys),
`text_opt_in` is true exactly when some key containing "text update" has
a truthy value, and `email_opt_in` likewise for "email update". -/
theorem C10_opt_in (sd : List (String × PyVal))
    (h : (sd.map Prod.fst).Nodup) :
    (optIn sd "text update" = true ↔
      ∃ kv ∈ sd, strContains (strToLower kv.1) "text update" = true ∧
        truthy kv.2 = true) ∧
    (optIn sd "email update" = true ↔
      ∃ kv ∈ sd, strContains (strToLower kv.1) "email update" = true ∧
        truthy kv.2 = true) :=
  ⟨optIn_iff sd "text update" h, optIn_iff sd "email update" h⟩

/-- Claim C10, witness: a truthy "Text Updates OK" key makes
`text_opt_in` true via the theorem. -/
theorem C10_opt_in_witness :
    optIn [("Text Updates OK", PyVal.bool true), ("Email Updates OK", PyVal.bool false)]
      "text update" = true := by
  refine (C10_opt_in
    [("Text Updates OK", PyVal.bool true), ("Email Updates OK", PyVal.bool false)]
    (by decide)).1.mpr ?_
  exact ⟨("Text Updates OK", PyVal.bool true), by simp, rfl, rfl⟩
